import Mathlib

/-
Verification of the keyword-research pipeline specification against the
source of DV0x/Keyword_research.

The development shallowly embeds the rule-level logic of the three core
stages — `FilterCluster` (src/pipeline/filter_cluster.py),
`SeasonalityScorer` (src/pipeline/seasonality_scorer.py) and
`CampaignExporter` (src/pipeline/campaign_exporter.py) — in Lean.

Modelling conventions:
  * pandas/NumPy floats are modelled as `ℚ`; a NaN cell is `Option.none`
    and every ordered comparison against NaN is false, as in pandas;
  * Python `round(x, n)` (round-half-to-even on floats) is modelled by an
    exact round-half-to-even on `ℚ`;
  * external library routines that the pipeline treats as black boxes
    (TF-IDF vectorization, K-means, the square root inside `np.std`,
    `re.search`) are parameters of the embedding, so theorems state
    exactly which behaviour of the library they rely on;
  * DataFrames are a list of rows plus flags for the optional columns the
    code guards with `'col' in df.columns`.
-/

namespace KeywordResearch

/-! ## Shared numeric helpers -/

/-- Comparison `x <= c` on a possibly-missing numeric cell: `none` models a
pandas NaN, for which every ordered comparison is false. -/
def optLe (x : Option ℚ) (c : ℚ) : Bool :=
  match x with
  | some v => decide (v ≤ c)
  | none => false

/-- Comparison `x >= c` on a possibly-missing numeric cell (false on NaN). -/
def optGe (x : Option ℚ) (c : ℚ) : Bool :=
  match x with
  | some v => decide (c ≤ v)
  | none => false

/-- Comparison `x > c` on a possibly-missing numeric cell (false on NaN). -/
def optGt (x : Option ℚ) (c : ℚ) : Bool :=
  match x with
  | some v => decide (c < v)
  | none => false

/-- Comparison `x < c` on a possibly-missing numeric cell (false on NaN). -/
def optLt (x : Option ℚ) (c : ℚ) : Bool :=
  match x with
  | some v => decide (v < c)
  | none => false

/-- Round a rational to the nearest integer, ties going to the even
integer: the behaviour of Python's `round` builtin. -/
def roundHalfEven (x : ℚ) : ℤ :=
  let f : ℤ := ⌊x⌋
  let frac : ℚ := x - f
  if frac < 1/2 then f
  else if 1/2 < frac then f + 1
  else if f % 2 = 0 then f else f + 1

/-- Python `round(x, 3)`. -/
def round3 (x : ℚ) : ℚ := (roundHalfEven (x * 1000) : ℚ) / 1000

/-- Python `round(x, 2)`. -/
def round2 (x : ℚ) : ℚ := (roundHalfEven (x * 100) : ℚ) / 100

/-- Arithmetic mean of a list of rationals (`np.mean`); 0 on the empty
list (division by the length 0). -/
def mean (l : List ℚ) : ℚ := l.sum / l.length

/-- Population variance of a list (`np.std` squared — NumPy's default
`ddof = 0`). -/
def popVar (l : List ℚ) : ℚ := (l.map (fun v => (v - mean l) ^ 2)).sum / l.length

/-- Index of the first occurrence of the maximum of a list (`np.argmax`);
0 on the empty list. -/
def idxOfMax : List ℚ → ℕ
  | [] => 0
  | v :: rest =>
    let i := idxOfMax rest
    match rest.get? i with
    | some w => if v < w then i + 1 else 0
    | none => 0

/-! ## SeasonalityScorer: `analyze_monthly_pattern`
(src/pipeline/seasonality_scorer.py, lines 44-147) -/

/-- One element of a parsed `monthly_searches` list. Well-formed elements
are Python dictionaries carrying a `month` and a `search_volume` key; the
loop at lines 84-89 skips anything that is not a dictionary
(`isinstance(month_data, dict)`). A `none` field models an absent key or a
JSON null: `month_data.get('search_volume', 0)` followed by `volume or 0`
turns both into 0, and `month_data.get('month', 1)` defaults to 1. -/
inductive MonthItem where
  | dict (month : Option ℤ) (search_volume : Option ℚ)
  | notDict
  deriving Repr, DecidableEq

/-- Value of a `monthly_searches` cell after the optional
`ast.literal_eval` step: either a Python list of items or some non-list
value (rejected at line 71 by `isinstance(monthly_data, list)`). -/
inductive PyMonthly where
  | list (items : List MonthItem)
  | nonList
  deriving Repr, DecidableEq

/-- One cell of the `monthly_searches` column as seen by
`analyze_monthly_pattern`. `null` models a cell for which `pd.isna` is
true (None/NaN); `emptyFalsy` a non-null but falsy cell (empty string or
empty list, caught by `not monthly_data`); `strCell p` a non-empty string
cell whose `ast.literal_eval` outcome is `p`, with `none` standing for a
`ValueError`/`SyntaxError` of the parse; `valCell v` a non-string truthy
cell. Cell truthiness is modelled at scalar semantics (in the deployed
path, cells are strings). -/
inductive MonthCell where
  | null
  | emptyFalsy
  | strCell (parsed : Option PyMonthly)
  | valCell (v : PyMonthly)
  deriving Repr, DecidableEq

/-- Result record of `analyze_monthly_pattern`. -/
structure SeasonalityResult where
  pattern : String
  peak_month : Option ℤ
  volatility : ℚ
  multiplier : ℚ
  is_seasonal : Bool
  deriving Repr, DecidableEq

/-- Python `monthly_data[-12:]`: the last (up to) 12 elements. -/
def lastTwelve (l : List MonthItem) : List MonthItem := l.drop (l.length - 12)

/-- Search volumes collected by the extraction loop (lines 84-89):
dictionary items contribute `get('search_volume', 0)` with `or 0`
coalescing, non-dictionary items are skipped. -/
def extractVolumes (l : List MonthItem) : List ℚ :=
  l.filterMap fun it =>
    match it with
    | .dict _ sv => some (sv.getD 0)
    | .notDict => none

/-- Months collected by the extraction loop (`get('month', 1)`). -/
def extractMonths (l : List MonthItem) : List ℤ :=
  l.filterMap fun it =>
    match it with
    | .dict m _ => some (m.getD 1)
    | .notDict => none

/-- Analysis of a cell value that survived the `isna`/falsiness guard and
the optional string parse (lines 71-137). `sqrtF` is the floating-point
square root used inside `np.std`: `np.std(volumes)` is embedded as
`sqrtF (popVar volumes)`, and theorems constrain `sqrtF` to return the
exact root where they rely on it. -/
def analyzeParsed (sqrtF : ℚ → ℚ) (p : PyMonthly) : SeasonalityResult :=
  match p with
  | .nonList => ⟨"Insufficient Data", none, 0, 1, false⟩
  | .list items =>
    if items.length < 1 then ⟨"Insufficient Data", none, 0, 1, false⟩
    else
      let volumes := extractVolumes (lastTwelve items)
      let months := extractMonths (lastTwelve items)
      if volumes.isEmpty || volumes.all (fun v => v == 0) then
        ⟨"No Data", none, 0, 1, false⟩
      else
        let avg := mean volumes
        let volatility := if 0 < avg then sqrtF (popVar volumes) / avg else 0
        let peak_idx := idxOfMax volumes
        let peak_month := months.get? peak_idx
        let is_seasonal := decide ((3 : ℚ)/10 < volatility)
        let current := if 0 < volumes.length then volumes.getLastD 0 else avg
        let multiplier := if 0 < avg then current / avg else 1
        let pat :=
          if is_seasonal = false then "Evergreen"
          else
            match peak_month with
            | some m =>
              if m = 11 ∨ m = 12 ∨ m = 1 then "Winter Peak"
              else if m = 2 ∨ m = 3 ∨ m = 4 then "Spring Peak"
              else if m = 5 ∨ m = 6 ∨ m = 7 then "Summer Peak"
              else if m = 8 ∨ m = 9 ∨ m = 10 then "Fall Peak"
              else "Seasonal"
            | none => "Seasonal"
        ⟨pat, peak_month, round3 volatility, round3 multiplier, is_seasonal⟩

/-- Shallow embedding of `analyze_monthly_pattern` (seasonality_scorer.py,
lines 44-147). The `null` and falsy guards (line 46) return the
"Unknown" sentinel; a failed `ast.literal_eval` (lines 57-69) returns the
"Parse Error" sentinel; otherwise the parsed value is analyzed. -/
def analyze_monthly_pattern (sqrtF : ℚ → ℚ) (cell : MonthCell) : SeasonalityResult :=
  match cell with
  | .null => ⟨"Unknown", none, 0, 1, false⟩
  | .emptyFalsy => ⟨"Unknown", none, 0, 1, false⟩
  | .strCell none => ⟨"Parse Error", none, 0, 1, false⟩
  | .strCell (some p) => analyzeParsed sqrtF p
  | .valCell p => analyzeParsed sqrtF p

/-! ## SeasonalityScorer: `score_cpc` and `assign_priority_tier`
(src/pipeline/seasonality_scorer.py, lines 224-236 and 256-262) -/

/-- Shallow embedding of `score_cpc` inside `calculate_keyword_scores`.
`none` models a NaN cpc cell (`pd.isna(cpc)`). -/
def score_cpc (cpc : Option ℚ) : ℚ :=
  match cpc with
  | none => 50
  | some c =>
    if c ≤ 0 then 50
    else if 2 ≤ c ∧ c ≤ 8 then 100
    else if (1 ≤ c ∧ c < 2) ∨ (8 < c ∧ c ≤ 12) then 75
    else if ((1 : ℚ)/2 ≤ c ∧ c < 1) ∨ (12 < c ∧ c ≤ 20) then 50
    else 25

/-- Shallow embedding of `assign_priority_tier` inside
`calculate_keyword_scores`. -/
def assign_priority_tier (score : ℚ) : String :=
  if 70 ≤ score then "High"
  else if 50 ≤ score then "Medium"
  else "Low"

/-- Numeric rank of a priority tier under the order Low < Medium < High. -/
def tierRank (t : String) : ℕ :=
  if t = "High" then 2 else if t = "Medium" then 1 else 0

/-- Seasonal bucket of a peak month, transcribed from the specification's
words: Nov-Jan is a Winter Peak, Feb-Apr a Spring Peak, May-Jul a Summer
Peak, Aug-Oct a Fall Peak. -/
def seasonBucket (m : ℤ) : String :=
  if m = 11 ∨ m = 12 ∨ m = 1 then "Winter Peak"
  else if 2 ≤ m ∧ m ≤ 4 then "Spring Peak"
  else if 5 ≤ m ∧ m ≤ 7 then "Summer Peak"
  else "Fall Peak"

/-- Sentinel shape asserted by the spec's failure semantics for the
seasonality analyzer: neutral multiplier, non-seasonal, zero volatility,
and one of the sentinel pattern labels occurring in the source. -/
def sentinelResult (r : SeasonalityResult) : Prop :=
  r.multiplier = 1 ∧ r.is_seasonal = false ∧ r.volatility = 0
  ∧ r.pattern ∈ (["Unknown", "Parse Error", "Insufficient Data", "No Data"] : List String)

/-- Volumes a parsed `monthly_searches` value contributes to the analysis
(empty for a non-list value). -/
def pyVolumes : PyMonthly → List ℚ
  | .list items => extractVolumes (lastTwelve items)
  | .nonList => []

/-! ## FilterCluster: data model
(src/pipeline/filter_cluster.py) -/

/-- The `filters` section of the configuration dictionary, as read by
`apply_smart_filters`. -/
structure Filters where
  min_search_volume : ℚ
  max_search_volume : ℚ
  min_cpc_cad : ℚ
  max_cpc_cad : ℚ
  max_keyword_difficulty : ℚ
  allowed_intents : List String
  min_word_count : ℕ
  max_word_count : ℕ
  exclude_patterns : List String
  deriving Repr, DecidableEq

/-- One row of the enriched keyword table. `none` in a field models a NaN
cell. The trailing fields are the columns added by the clustering stage
(`none` = column not yet present). -/
structure KeywordRow where
  keyword : Option String
  search_volume : Option ℚ
  cpc : Option ℚ
  keyword_difficulty : Option ℚ
  main_intent : Option String
  cluster_id : Option ℕ
  cluster_name : Option String
  category_cluster : Option String
  difficulty_tier : Option String
  recommended_match_type : Option String
  deriving Repr, DecidableEq

/-- A keyword DataFrame: its rows plus presence flags for the five input
columns that the filter stage guards with `'col' in df.columns`. -/
structure KeywordFrame where
  hasSearchVolume : Bool
  hasCpc : Bool
  hasDifficulty : Bool
  hasMainIntent : Bool
  hasKeyword : Bool
  rows : List KeywordRow
  deriving Repr, DecidableEq

/-- Token counter over characters: counts maximal runs of non-whitespace,
with the flag recording whether the scan is inside a run. -/
def tokenCount : List Char → Bool → ℕ
  | [], _ => 0
  | c :: cs, inWord =>
    if c.isWhitespace then tokenCount cs false
    else (if inWord then 0 else 1) + tokenCount cs true

/-- Number of whitespace-delimited tokens of a string
(Python `str(s).split()`). -/
def wordCount (s : String) : ℕ := tokenCount s.toList false

/-- Python `str.lower()` (per-character lowering). -/
def pyLower (s : String) : String := ⟨s.data.map Char.toLower⟩

/-- Python `str.strip()`: drop leading and trailing whitespace. -/
def pyStrip (s : String) : String :=
  ⟨((s.data.dropWhile Char.isWhitespace).reverse.dropWhile Char.isWhitespace).reverse⟩

/-- One entry of the `filter_log` list: the rule's label, the surviving
count after it, and the original count (the source formats these into the
string "label: surviving/original keywords"). -/
structure FilterLogEntry where
  rule : String
  surviving : ℕ
  original : ℕ
  deriving Repr, DecidableEq

/-! ## FilterCluster: the six filter rules and `apply_smart_filters`
(filter_cluster.py, lines 21-95) -/

/-- Volume rule (lines 31-34): both bounds see `fillna(0)`. -/
def volPred (cfg : Filters) (r : KeywordRow) : Bool :=
  decide (cfg.min_search_volume ≤ r.search_volume.getD 0)
    && decide (r.search_volume.getD 0 ≤ cfg.max_search_volume)

/-- CPC rule (lines 40-43): the lower bound sees `fillna(0)`, the upper
bound `fillna(999)`. -/
def cpcPred (cfg : Filters) (r : KeywordRow) : Bool :=
  decide (cfg.min_cpc_cad ≤ r.cpc.getD 0)
    && decide (r.cpc.getD 999 ≤ cfg.max_cpc_cad)

/-- Difficulty rule (line 49): `fillna(50)`. -/
def diffPred (cfg : Filters) (r : KeywordRow) : Bool :=
  decide (r.keyword_difficulty.getD 50 ≤ cfg.max_keyword_difficulty)

/-- Intent rule (line 55): `isin(allowed_intents)`; a NaN intent is in no
set. -/
def intentPred (cfg : Filters) (r : KeywordRow) : Bool :=
  match r.main_intent with
  | some i => cfg.allowed_intents.contains i
  | none => false

/-- Word-count rule (lines 61-67): a NaN keyword fails. -/
def wcPred (cfg : Filters) (r : KeywordRow) : Bool :=
  match r.keyword with
  | none => false
  | some k =>
    decide (cfg.min_word_count ≤ wordCount k) && decide (wordCount k ≤ cfg.max_word_count)

/-- Pattern-exclusion rule (lines 72-85): `matcher pat text` models
`re.search(pat, text, re.IGNORECASE)` on the lowercased keyword; a NaN
keyword counts as matching; a record is kept iff no pattern matches. -/
def patternPred (matcher : String → String → Bool) (cfg : Filters) (r : KeywordRow) : Bool :=
  match r.keyword with
  | none => false
  | some k => !(cfg.exclude_patterns.any fun p => matcher p (pyLower k))

/-- Shallow embedding of `apply_smart_filters` (lines 21-95): six staged
boolean-mask filters, each applied to the survivors of the previous ones
and each skipped (with no log line) when its column is absent; every log
entry records the surviving count after that rule over the original
count. -/
def apply_smart_filters (matcher : String → String → Bool) (cfg : Filters)
    (df : KeywordFrame) : KeywordFrame × List FilterLogEntry :=
  let original := df.rows.length
  let r1 := if df.hasSearchVolume then df.rows.filter (volPred cfg) else df.rows
  let l1 : List FilterLogEntry :=
    if df.hasSearchVolume then [⟨"Volume filter", r1.length, original⟩] else []
  let r2 := if df.hasCpc then r1.filter (cpcPred cfg) else r1
  let l2 : List FilterLogEntry :=
    if df.hasCpc then [⟨"CPC filter", r2.length, original⟩] else []
  let r3 := if df.hasDifficulty then r2.filter (diffPred cfg) else r2
  let l3 : List FilterLogEntry :=
    if df.hasDifficulty then [⟨"Difficulty filter", r3.length, original⟩] else []
  let r4 := if df.hasMainIntent then r3.filter (intentPred cfg) else r3
  let l4 : List FilterLogEntry :=
    if df.hasMainIntent then [⟨"Intent filter", r4.length, original⟩] else []
  let r5 := if df.hasKeyword then r4.filter (wcPred cfg) else r4
  let l5 : List FilterLogEntry :=
    if df.hasKeyword then [⟨"Word count filter", r5.length, original⟩] else []
  let r6 := if df.hasKeyword then r5.filter (patternPred matcher cfg) else r5
  let l6 : List FilterLogEntry :=
    if df.hasKeyword then [⟨"Pattern exclusion filter", r6.length, original⟩] else []
  ({ df with rows := r6 }, l1 ++ l2 ++ l3 ++ l4 ++ l5 ++ l6)

/-- Conjunction of every configured rule: a record passes iff it passes
each rule whose column is present. -/
def passesAll (matcher : String → String → Bool) (cfg : Filters)
    (df : KeywordFrame) (r : KeywordRow) : Bool :=
  (!df.hasSearchVolume || volPred cfg r) && (!df.hasCpc || cpcPred cfg r)
  && (!df.hasDifficulty || diffPred cfg r) && (!df.hasMainIntent || intentPred cfg r)
  && (!df.hasKeyword || wcPred cfg r) && (!df.hasKeyword || patternPred matcher cfg r)

/-! ## FilterCluster: clustering, tiers, match types, main entry
(filter_cluster.py, lines 97-368) -/

/-- Keyword texts handed to the vectorizer (line 133):
`df['keyword'].fillna('').astype(str)`. -/
def keywordTexts (df : KeywordFrame) : List String :=
  df.rows.map fun r => r.keyword.getD ""

/-- Shallow embedding of `create_semantic_clusters` (lines 122-184) over a
black-box vectorizer and K-means library: `vectorize` models
`TfidfVectorizer(...).fit_transform` (`none` = the `ValueError` caught at
lines 144-150), `kmLabels n m` models `KMeans(n_clusters=n,
random_state=42, n_init=10).fit_predict`, and `kmName n m i` the cluster
name joined from the top-3 terms of centre `i` (lines 166-176). The value
is the pair (returned frame, state of the argument frame after the call):
the two degenerate paths assign the cluster columns on the argument frame
itself (`df['cluster_id'] = 0` with no preceding copy, lines 128-129 and
148-149), while the normal path copies first (line 162) and leaves the
argument unchanged. -/
def create_semantic_clusters {M : Type} (vectorize : List String → Option M)
    (kmLabels : ℕ → M → List ℕ) (kmName : ℕ → M → ℕ → String)
    (df : KeywordFrame) (n_clusters : Option ℕ) : KeywordFrame × KeywordFrame :=
  if df.rows.length < 10 then
    let mutated := { df with rows := df.rows.map fun r =>
      { r with cluster_id := some 0, cluster_name := some "All Keywords" } }
    (mutated, mutated)
  else
    match vectorize (keywordTexts df) with
    | none =>
      let mutated := { df with rows := df.rows.map fun r =>
        { r with cluster_id := some 0, cluster_name := some "All Keywords" } }
      (mutated, mutated)
    | some m =>
      let n := match n_clusters with
        | some k => k
        | none => max 3 (min 20 (df.rows.length / 5))
      let labels := kmLabels n m
      let newRows := (df.rows.zip labels).map fun rl =>
        { rl.1 with cluster_id := some rl.2, cluster_name := some (kmName n m rl.2) }
      ({ df with rows := newRows }, df)

/-- Shallow embedding of `assign_difficulty_tier` (lines 266-275). -/
def assign_difficulty_tier (difficulty : Option ℚ) : String :=
  match difficulty with
  | none => "Medium"
  | some d => if d ≤ 30 then "Easy" else if d ≤ 60 then "Medium" else "Hard"

/-- Shallow embedding of `create_difficulty_tiers` (lines 260-285): works
on a copy; when the difficulty column is absent every row gets the tier of
a missing value. -/
def create_difficulty_tiers (df : KeywordFrame) : KeywordFrame :=
  { df with rows := df.rows.map fun r =>
      { r with difficulty_tier := some (assign_difficulty_tier
          (if df.hasDifficulty then r.keyword_difficulty else none)) } }

/-- Substring test `needle in hay` on Python strings. -/
def strContains (hay needle : String) : Bool := decide (needle.toList <:+: hay.toList)

/-- Shallow embedding of `recommend_match_type` inside `assign_match_types`
(lines 293-312). `str(row.get('keyword', ''))` yields "nan" for a NaN cell
and "" when the column is absent; `row.get('search_volume', 0)` yields 0
when the column is absent and NaN (on which `>` is false) otherwise. -/
def recommend_match_type (hasKeyword hasVolume : Bool) (r : KeywordRow) : String :=
  let keyword : String :=
    if hasKeyword then (match r.keyword with | some s => s | none => "nan") else ""
  let sv : Option ℚ := if hasVolume then r.search_volume else some 0
  let wc := wordCount keyword
  if optGt sv 1000 && decide (wc ≤ 3) then "Exact"
  else if 4 ≤ wc then "Phrase"
  else if ["mortgage", "loan", "credit"].any (fun b => strContains (pyLower keyword) b) then
    "Exact"
  else "Phrase"

/-- Shallow embedding of `assign_match_types` (lines 287-322): works on a
copy, adding the recommended match type per row. -/
def assign_match_types (df : KeywordFrame) : KeywordFrame :=
  { df with rows := df.rows.map fun r =>
      { r with recommended_match_type := some (recommend_match_type
          df.hasKeyword df.hasSearchVolume r) } }

/-- Shallow embedding of `generate_negative_keywords` (lines 97-120): a
fixed list of common and finance negative terms (the DataFrame argument of
the source is ignored by its body). -/
def generate_negative_keywords : List String :=
  ["jobs", "careers", "salary", "hiring", "employment",
   "definition", "meaning", "what is", "how to become",
   "course", "training", "certification", "school", "university",
   "free", "diy", "yourself",
   "internship", "degree", "software", "calculator", "template",
   "blog", "news", "article", "guide", "tips"]

/-- Results dictionary of `filter_and_cluster_keywords`: a key that was
never set is `none`. -/
structure FCResults where
  filter_log : List FilterLogEntry
  negative_keywords : Option (List String)
  filtered_keywords : Option KeywordFrame
  deriving Repr, DecidableEq

/-- Shallow embedding of `filter_and_cluster_keywords` (lines 324-368).
The source contains no `raise` statement: the zero-survivor branch logs an
error and returns the partial results dictionary (without the
`filtered_keywords` and `negative_keywords` keys), so the `Except` error
channel — the channel an `EmptyResultError` would use — is never taken.
Category clustering is the hard-coded fallback of line 348. -/
def filter_and_cluster_keywords {M : Type} (matcher : String → String → Bool)
    (vectorize : List String → Option M) (kmLabels : ℕ → M → List ℕ)
    (kmName : ℕ → M → ℕ → String) (cfg : Filters) (enriched : KeywordFrame) :
    Except String FCResults :=
  let filtered := (apply_smart_filters matcher cfg enriched).1
  let flog := (apply_smart_filters matcher cfg enriched).2
  if filtered.rows.length = 0 then
    .ok ⟨flog, none, none⟩
  else
    let negs := generate_negative_keywords
    let clustered := (create_semantic_clusters vectorize kmLabels kmName filtered none).1
    let withCat := { clustered with rows := clustered.rows.map fun r =>
        { r with category_cluster := some "Uncategorized" } }
    let tiers := create_difficulty_tiers withCat
    let final := assign_match_types tiers
    .ok ⟨flog, some negs, some final⟩

/-! ## CampaignExporter
(src/pipeline/campaign_exporter.py) -/

/-- One row of the scored keyword table as the campaign exporter sees it.
`none` models a NaN cell; the four numeric columns themselves are always
present after the required-column guard of `_prepare_campaign_keywords`
(lines 88-91). The trailing fields are the columns the exporter adds. -/
structure CampRow where
  keyword : Option String
  search_volume : Option ℚ
  cpc : Option ℚ
  keyword_difficulty : Option ℚ
  main_intent : Option String
  keyword_clean : Option String
  recommended_match_type : Option String
  recommended_bid_cad : Option ℚ
  campaign_tier : Option String
  deriving Repr, DecidableEq

/-- The exporter's input table: rows plus the presence flag for the
`main_intent` column (guarded at line 83). -/
structure CampFrame where
  hasMainIntent : Bool
  rows : List CampRow
  deriving Repr, DecidableEq

/-- Shallow embedding of `_recommend_match_type` (lines 115-142);
`str(row.get('keyword', '')).lower()` yields "nan" for a NaN keyword. -/
def _recommend_match_type (r : CampRow) : String :=
  let keyword := pyLower (match r.keyword with | some s => s | none => "nan")
  let wc := wordCount keyword
  if 4 ≤ wc then "exact"
  else if optGt r.search_volume 1000 && optGt r.keyword_difficulty 60 then "exact"
  else if ["mortgage broker", "lender", "company"].any (fun t => strContains keyword t) then
    "exact"
  else if optGe r.search_volume 100 && optLe r.search_volume 1000
      && optGe r.keyword_difficulty 30 && optLe r.keyword_difficulty 60 then "phrase"
  else if optLt r.keyword_difficulty 30 then "broad"
  else "phrase"

/-- Shallow embedding of `_calculate_recommended_bid` (lines 144-171). -/
def _calculate_recommended_bid (r : CampRow) : ℚ :=
  let base0 : ℚ :=
    if optGt r.cpc 0 then r.cpc.getD 0
    else if optGt r.keyword_difficulty 70 then 3
    else if optGt r.keyword_difficulty 40 then 2
    else 1
  let base1 :=
    if optGt r.search_volume 1000 then base0 * (6/5)
    else if optLt r.search_volume 50 then base0 * (4/5)
    else base0
  round2 (max (1/2) (min base1 10))

/-- Shallow embedding of `_assign_campaign_tier` (lines 173-195): a fixed
priority-ordered decision list on difficulty and volume. -/
def _assign_campaign_tier (r : CampRow) : String :=
  if optLe r.keyword_difficulty 30 && optGe r.search_volume 100 then "tier_1_easy_wins"
  else if optGe r.search_volume 1000 then "tier_2_high_volume"
  else if optLe r.keyword_difficulty 40 then "tier_3_long_tail"
  else if optGt r.keyword_difficulty 60 && optGe r.search_volume 500 then "tier_4_competitive"
  else "tier_5_general"

/-- Selection predicate of `_prepare_campaign_keywords`: the intent filter
(when the column exists) and the cleaned-keyword length test combined. -/
def campaignKeep (hasIntent : Bool) (r : CampRow) : Bool :=
  (!hasIntent || (match r.main_intent with
    | some i => ["commercial", "transactional"].contains i
    | none => false))
  && (match r.keyword with
    | some k => decide (2 < (pyStrip (pyLower k)).length)
    | none => false)

/-- Shallow embedding of `_prepare_campaign_keywords` (lines 76-113): copy;
keep commercial/transactional intents when the column exists; ensure the
required columns (an identity here, the row model carries them); compute
`keyword_clean = keyword.str.lower().str.strip()` (NaN keywords give NaN);
keep rows whose cleaned keyword is longer than 2 characters; then add the
match type, bid and campaign tier columns. -/
def _prepare_campaign_keywords (df : CampFrame) : List CampRow :=
  let r1 :=
    if df.hasMainIntent then
      df.rows.filter fun r =>
        match r.main_intent with
        | some i => ["commercial", "transactional"].contains i
        | none => false
    else df.rows
  let r2 := r1.map fun r =>
    { r with keyword_clean := r.keyword.map fun k : String => pyStrip (pyLower k) }
  let r3 := r2.filter fun r =>
    match r.keyword_clean with
    | some k => decide (2 < k.length)
    | none => false
  r3.map fun r =>
    let ra := { r with recommended_match_type := some (_recommend_match_type r) }
    let rb := { ra with recommended_bid_cad := some (_calculate_recommended_bid ra) }
    { rb with campaign_tier := some (_assign_campaign_tier rb) }

/-- Projection of a row onto the fields present before the exporter's
enrichment: the derived columns are blanked. -/
def baseOf (r : CampRow) : CampRow :=
  { r with keyword_clean := none, recommended_match_type := none,
           recommended_bid_cad := none, campaign_tier := none }

/-- Decision list of campaign-tier assignment transcribed from the
specification's words in section 4.5: first matching rule wins. -/
def assignTierSpec (d v : ℚ) : String :=
  if d ≤ 30 ∧ 100 ≤ v then "tier_1_easy_wins"
  else if 1000 ≤ v then "tier_2_high_volume"
  else if d ≤ 40 then "tier_3_long_tail"
  else if 60 < d ∧ 500 ≤ v then "tier_4_competitive"
  else "tier_5_general"

/-- Whether the result dictionary was produced normally (no exception). -/
def exceptOk (x : Except String FCResults) : Bool :=
  match x with
  | .ok _ => true
  | .error _ => false

/-- The `filtered_keywords` entry of a normally produced result. -/
def exceptFiltered (x : Except String FCResults) : Option KeywordFrame :=
  match x with
  | .ok r => r.filtered_keywords
  | .error _ => none

/-- The `negative_keywords` entry of a normally produced result. -/
def exceptNegs (x : Except String FCResults) : Option (List String) :=
  match x with
  | .ok r => r.negative_keywords
  | .error _ => none

/-- Concrete filter configuration: volume in [10, 1000000], CPC in
[1, 100], difficulty at most 100, commercial intent, 1-10 words, no
exclusion patterns. -/
def c1Cfg : Filters := ⟨10, 1000000, 1, 100, 100, ["commercial"], 1, 10, []⟩

/-- Row that fails the volume rule (volume 0) but passes the CPC rule
(CPC 5). -/
def c1RowA : KeywordRow :=
  ⟨some "a", some 0, some 5, some 10, some "commercial", none, none, none, none, none⟩

/-- Row that passes the volume rule (volume 100) but fails the CPC rule
(CPC 0). -/
def c1RowB : KeywordRow :=
  ⟨some "b", some 100, some 0, some 10, some "commercial", none, none, none, none, none⟩

/-- Two-row frame with all filter columns present. -/
def c1Df : KeywordFrame := ⟨true, true, true, true, true, [c1RowA, c1RowB]⟩

/-- Regex matcher that matches nothing. -/
def c1Matcher : String → String → Bool := fun _ _ => false

/-- One-row frame whose row passes every rule of `c1Cfg`. -/
def c2OneDf : KeywordFrame := ⟨true, true, true, true, true,
  [⟨some "a", some 100, some 5, some 10, some "commercial", none, none, none, none, none⟩]⟩

/-- Ten-row frame (large enough for the normal clustering path). -/
def c3WDf : KeywordFrame := ⟨true, true, true, true, true, List.replicate 10 c1RowB⟩

/-- One-row frame (fewer than 10 keywords: the degenerate clustering
path). -/
def c3CexDf : KeywordFrame := ⟨true, true, true, true, true, [c1RowB]⟩

/-- The row of `c3CexDf` after the degenerate clustering path assigns the
single cluster. -/
def c4WRow : KeywordRow :=
  { c1RowB with cluster_id := some 0, cluster_name := some "All Keywords" }

/-- Row with difficulty 20 and volume 150 (the easy-wins region). -/
def c8WRow : CampRow := ⟨some "kw", some 150, none, some 20, none, none, none, none, none⟩

/-- Concrete two-observation history used to exercise the seasonality
analyzer: January volume 1, February volume 2. -/
def c5WItems : List MonthItem := [.dict (some 1) (some 1), .dict (some 2) (some 2)]

/-- Square-root routine that is exact on the population variance of the
volumes of `c5WItems` (1/4). -/
def c5WSqrt : ℚ → ℚ := fun q => if q = 1/4 then 1/2 else 0


/-! ## Lemmas about the numeric helpers -/

lemma idxOfMax_lt_length {l : List ℚ} (h : l ≠ []) : idxOfMax l < l.length := by
  cases l with
  | nil => exact absurd rfl h
  | cons v rest =>
    simp only [idxOfMax]
    cases hg : rest.get? (idxOfMax rest) with
    | none => simp
    | some w =>
      have hlt : idxOfMax rest < rest.length := by
        by_contra hge
        rw [List.get?_eq_none.mpr (by omega)] at hg
        exact Option.noConfusion hg
      by_cases hv : v < w
      · simpa [hv] using by omega
      · simp [hv]

lemma getD_le_idxOfMax :
    ∀ (l : List ℚ) (j : ℕ), j < l.length → l.getD j 0 ≤ l.getD (idxOfMax l) 0 := by
  intro l
  induction l with
  | nil => intro j hj; simp at hj
  | cons v rest ih =>
    intro j hj
    simp only [idxOfMax]
    cases hg : rest.get? (idxOfMax rest) with
    | none =>
      have hrest : rest = [] := by
        cases hr : rest with
        | nil => rfl
        | cons a t =>
          have h1 : idxOfMax rest < rest.length := idxOfMax_lt_length (by simp [hr])
          rw [List.get?_eq_none] at hg
          omega
      subst hrest
      have hj0 : j = 0 := by simpa using hj
      subst hj0
      simp
    | some w =>
      have hw : rest.getD (idxOfMax rest) 0 = w := by
        rw [List.getD_eq_getD_get?, hg]; rfl
      by_cases hv : v < w
      · simp only [if_pos hv]
        cases j with
        | zero =>
          rw [List.getD_cons_zero, List.getD_cons_succ, hw]
          exact le_of_lt hv
        | succ j' =>
          simp only [List.getD_cons_succ, hw]
          rw [← hw]
          exact ih j' (by simpa using hj)
      · simp only [if_neg hv]
        push_neg at hv
        cases j with
        | zero => simp
        | succ j' =>
          simp only [List.getD_cons_succ, List.getD_cons_zero]
          exact le_trans (hw ▸ ih j' (by simpa using hj)) hv

lemma idxOfMax_eq_of_unique_max {l : List ℚ} {i : ℕ} (hi : i < l.length)
    (hmax : ∀ j, j < l.length → j ≠ i → l.getD j 0 < l.getD i 0) :
    idxOfMax l = i := by
  by_contra hne
  have h1 : idxOfMax l < l.length := idxOfMax_lt_length (by rintro rfl; simp at hi)
  have h2 := hmax (idxOfMax l) h1 hne
  have h3 := getD_le_idxOfMax l i hi
  linarith

lemma list_sum_pos_of_mem {l : List ℚ} (hnn : ∀ v ∈ l, 0 ≤ v) {x : ℚ}
    (hx : x ∈ l) (hx0 : 0 < x) : 0 < l.sum := by
  induction l with
  | nil => simp at hx
  | cons a t ih =>
    rcases List.mem_cons.mp hx with rfl | hmem
    · have ht : 0 ≤ t.sum := List.sum_nonneg fun v hv => hnn v (List.mem_cons_of_mem _ hv)
      simpa using add_pos_of_pos_of_nonneg hx0 ht
    · have ha : 0 ≤ a := hnn a (List.mem_cons_self a t)
      have := ih (fun v hv => hnn v (List.mem_cons_of_mem _ hv)) hmem
      simpa using add_pos_of_nonneg_of_pos ha this

/-! ## Seasonality analysis lemmas -/

lemma analyzeParsed_spec (sqrtF : ℚ → ℚ) (items : List MonthItem) (s : ℚ) (i : ℕ)
    (hlen12 : items.length ≤ 12) (hlen1 : 1 ≤ items.length)
    (hnn : ∀ v ∈ extractVolumes items, 0 ≤ v)
    (hnz : ∃ v ∈ extractVolumes items, v ≠ 0)
    (hsqrt : sqrtF (popVar (extractVolumes items)) = s)
    (hi : i < (extractVolumes items).length)
    (hmax : ∀ j, j < (extractVolumes items).length → j ≠ i →
      (extractVolumes items).getD j 0 < (extractVolumes items).getD i 0) :
    (analyzeParsed sqrtF (.list items)).volatility
        = round3 (s / mean (extractVolumes items))
    ∧ ((analyzeParsed sqrtF (.list items)).is_seasonal = true
        ↔ 3/10 < s / mean (extractVolumes items))
    ∧ (analyzeParsed sqrtF (.list items)).peak_month = (extractMonths items).get? i
    ∧ (analyzeParsed sqrtF (.list items)).multiplier
        = round3 ((extractVolumes items).getLastD 0 / mean (extractVolumes items))
    ∧ ∀ m, (extractMonths items).get? i = some m → 1 ≤ m → m ≤ 12 →
        (analyzeParsed sqrtF (.list items)).pattern
          = if s / mean (extractVolumes items) ≤ 3/10 then "Evergreen"
            else seasonBucket m := by
  have hlast : lastTwelve items = items := by
    unfold lastTwelve
    rw [Nat.sub_eq_zero_of_le hlen12, List.drop_zero]
  have hvne : extractVolumes items ≠ [] := by
    rcases hnz with ⟨v, hv, _⟩
    exact List.ne_nil_of_mem hv
  have hguard : ((extractVolumes items).isEmpty
      || (extractVolumes items).all (fun v => v == 0)) = false := by
    rw [Bool.or_eq_false_iff]
    refine ⟨by simpa using hvne, ?_⟩
    rcases hnz with ⟨v, hv, hv0⟩
    rw [Bool.eq_false_iff]
    intro hall
    rw [List.all_eq_true] at hall
    exact hv0 (by simpa using hall v hv)
  have havg : 0 < mean (extractVolumes items) := by
    rcases hnz with ⟨v, hv, hv0⟩
    have hvpos : 0 < v := lt_of_le_of_ne (hnn v hv) (Ne.symm hv0)
    have hsum : 0 < (extractVolumes items).sum := list_sum_pos_of_mem hnn hv hvpos
    have hlen : 0 < ((extractVolumes items).length : ℚ) := by
      have := List.length_pos.mpr hvne
      exact_mod_cast this
    exact div_pos hsum hlen
  have hidx : idxOfMax (extractVolumes items) = i := idxOfMax_eq_of_unique_max hi hmax
  have hlenpos : 0 < (extractVolumes items).length := List.length_pos.mpr hvne
  simp only [analyzeParsed, hlast, hguard, Bool.false_eq_true, if_false,
    if_neg (by omega : ¬ items.length < 1), if_pos havg, if_pos hlenpos, hsqrt, hidx]
  refine ⟨by trivial, by simp [decide_eq_true_iff], by trivial, by trivial, ?_⟩
  intro m hm h1 h12
  rw [hm]
  by_cases hs : s / mean (extractVolumes items) ≤ 3/10
  · simp [hs, decide_eq_false_iff_not, not_lt.mpr hs]
  · push_neg at hs
    have hd : decide (3/10 < s / mean (extractVolumes items)) = true := decide_eq_true hs
    simp only [hd, if_neg (by simp : ¬ (true = false)), if_neg (not_le.mpr hs)]
    unfold seasonBucket
    interval_cases m <;> norm_num

/-! ## Claim C5 -/

/-- C5 (amended): for every well-formed, non-all-zero monthly history of up
to 12 observations — handed to the analyzer either as a string cell that
parses to the list or as the list itself — and for every square-root
routine that computes the exact population standard deviation `s` of the
volumes: the returned `volatility` is the coefficient of variation
`s / mean` rounded to 3 decimal places, `is_seasonal` is true iff the
unrounded coefficient exceeds 0.30, `peak_month` is the month of the unique
highest-volume observation, `multiplier` is the most recent volume divided
by the mean, rounded to 3 decimal places, and `pattern` is "Evergreen" when
not seasonal and otherwise the 3-month seasonal bucket of the peak month.
(The claim as frozen omits the 3-decimal rounding of `volatility` and
`multiplier`; see the counterexample.) -/
theorem c5_theorem (sqrtF : ℚ → ℚ) (items : List MonthItem) (s : ℚ) (i : ℕ)
    (hlen12 : items.length ≤ 12) (hlen1 : 1 ≤ items.length)
    (hnn : ∀ v ∈ extractVolumes items, 0 ≤ v)
    (hnz : ∃ v ∈ extractVolumes items, v ≠ 0)
    (hsqrt : sqrtF (popVar (extractVolumes items)) = s)
    (hi : i < (extractVolumes items).length)
    (hmax : ∀ j, j < (extractVolumes items).length → j ≠ i →
      (extractVolumes items).getD j 0 < (extractVolumes items).getD i 0) :
    analyze_monthly_pattern sqrtF (.valCell (.list items))
        = analyze_monthly_pattern sqrtF (.strCell (some (.list items)))
    ∧ (analyze_monthly_pattern sqrtF (.strCell (some (.list items)))).volatility
        = round3 (s / mean (extractVolumes items))
    ∧ ((analyze_monthly_pattern sqrtF (.strCell (some (.list items)))).is_seasonal = true
        ↔ 3/10 < s / mean (extractVolumes items))
    ∧ (analyze_monthly_pattern sqrtF (.strCell (some (.list items)))).peak_month
        = (extractMonths items).get? i
    ∧ (analyze_monthly_pattern sqrtF (.strCell (some (.list items)))).multiplier
        = round3 ((extractVolumes items).getLastD 0 / mean (extractVolumes items))
    ∧ ∀ m, (extractMonths items).get? i = some m → 1 ≤ m → m ≤ 12 →
        (analyze_monthly_pattern sqrtF (.strCell (some (.list items)))).pattern
          = if s / mean (extractVolumes items) ≤ 3/10 then "Evergreen"
            else seasonBucket m := by
  have h := analyzeParsed_spec sqrtF items s i hlen12 hlen1 hnn hnz hsqrt hi hmax
  exact ⟨rfl, h.1, h.2.1, h.2.2.1, h.2.2.2.1, h.2.2.2.2⟩

/-- C5 witness: the amended theorem applied to the concrete two-month
history `c5WItems` with exact square root `c5WSqrt`. -/
theorem c5_witness :
    (analyze_monthly_pattern c5WSqrt (.strCell (some (.list c5WItems)))).volatility
        = round3 ((1/2 : ℚ) / mean (extractVolumes c5WItems))
    ∧ (analyze_monthly_pattern c5WSqrt (.strCell (some (.list c5WItems)))).peak_month
        = (extractMonths c5WItems).get? 1
    ∧ (analyze_monthly_pattern c5WSqrt (.strCell (some (.list c5WItems)))).pattern
        = if (1/2 : ℚ) / mean (extractVolumes c5WItems) ≤ 3/10 then "Evergreen"
          else seasonBucket 2 := by
  have h := c5_theorem c5WSqrt c5WItems (1/2) 1 (by norm_num [c5WItems])
    (by norm_num [c5WItems])
    (by decide) (by decide)
    (by norm_num [c5WSqrt, c5WItems, popVar, mean, extractVolumes, List.filterMap])
    (by decide) (by decide)
  exact ⟨h.2.1, h.2.2.2.1, h.2.2.2.2.2 2 (by decide) (by decide) (by decide)⟩

/-- C5 counterexample to the claim as frozen: for the history `c5WItems`
the population standard deviation of the volumes is exactly 1/2 (variance
1/4) and the mean is 3/2, so the claimed volatility is (1/2)/(3/2) = 1/3
and the claimed multiplier is 2/(3/2) = 4/3; the analyzer returns the
3-decimal roundings 0.333 and 1.333 instead. -/
theorem c5_counterexample :
    ((1/2 : ℚ)) * (1/2) = popVar (extractVolumes c5WItems)
    ∧ ((0 : ℚ)) ≤ 1/2
    ∧ c5WSqrt (popVar (extractVolumes c5WItems)) = 1/2
    ∧ mean (extractVolumes c5WItems) = 3/2
    ∧ (extractVolumes c5WItems).getLastD 0 = 2
    ∧ (analyze_monthly_pattern c5WSqrt (.strCell (some (.list c5WItems)))).volatility
        ≠ (1/2 : ℚ) / (3/2)
    ∧ (analyze_monthly_pattern c5WSqrt (.strCell (some (.list c5WItems)))).multiplier
        ≠ (2 : ℚ) / (3/2) := by
  norm_num [c5WItems, c5WSqrt, analyze_monthly_pattern, analyzeParsed, extractVolumes,
    extractMonths, lastTwelve, popVar, mean, idxOfMax, round3, roundHalfEven,
    List.filterMap, List.getLastD]

/-! ## Claim C6 -/

/-- C6 (amended): for every malformed or missing monthly history — a null
cell, a falsy cell (empty list/string), a string that fails to parse, or a
history whose extracted volumes are all zero — and for every square-root
routine, the analyzer returns a sentinel with multiplier 1, is_seasonal
false, volatility 0 and one of the sentinel patterns "Unknown",
"Parse Error", "Insufficient Data", "No Data"; being a total function of
the cell, it propagates no exception. (The claim as frozen names only
"Unknown"/"No Data" as sentinel patterns; an unparseable string yields
"Parse Error" — see the counterexample.) -/
theorem c6_theorem (sqrtF : ℚ → ℚ) (p : PyMonthly)
    (hz : ∀ v ∈ pyVolumes p, v = 0) :
    sentinelResult (analyze_monthly_pattern sqrtF .null)
    ∧ sentinelResult (analyze_monthly_pattern sqrtF .emptyFalsy)
    ∧ sentinelResult (analyze_monthly_pattern sqrtF (.strCell none))
    ∧ sentinelResult (analyze_monthly_pattern sqrtF (.strCell (some p)))
    ∧ sentinelResult (analyze_monthly_pattern sqrtF (.valCell p)) := by
  have key : sentinelResult (analyzeParsed sqrtF p) := by
    cases p with
    | nonList => simp [analyzeParsed, sentinelResult]
    | list items =>
      by_cases hlen : items.length < 1
      · simp [analyzeParsed, hlen, sentinelResult]
      · have hall : (extractVolumes (lastTwelve items)).all (fun v => v == 0) = true := by
          rw [List.all_eq_true]
          intro v hv
          simpa using hz v (by simpa [pyVolumes] using hv)
        simp [analyzeParsed, hlen, hall, sentinelResult]
  exact ⟨by simp [analyze_monthly_pattern, sentinelResult],
    by simp [analyze_monthly_pattern, sentinelResult],
    by simp [analyze_monthly_pattern, sentinelResult], key, key⟩

/-- C6 witness: the theorem applied to the all-zero single-month history. -/
theorem c6_witness :
    sentinelResult (analyze_monthly_pattern (fun _ => 0) .null)
    ∧ sentinelResult (analyze_monthly_pattern (fun _ => 0) .emptyFalsy)
    ∧ sentinelResult (analyze_monthly_pattern (fun _ => 0) (.strCell none))
    ∧ sentinelResult (analyze_monthly_pattern (fun _ => 0)
        (.strCell (some (.list [.dict (some 1) (some 0)]))))
    ∧ sentinelResult (analyze_monthly_pattern (fun _ => 0)
        (.valCell (.list [.dict (some 1) (some 0)]))) :=
  c6_theorem (fun _ => 0) (.list [.dict (some 1) (some 0)]) (by decide)

/-- C6 counterexample to the claim as frozen: an unparseable string returns
the sentinel pattern "Parse Error", which is neither "Unknown" nor
"No Data" (multiplier and is_seasonal are still the claimed sentinels). -/
theorem c6_counterexample :
    (analyze_monthly_pattern (fun _ => 0) (.strCell none)).pattern = "Parse Error"
    ∧ (analyze_monthly_pattern (fun _ => 0) (.strCell none)).pattern ≠ "Unknown"
    ∧ (analyze_monthly_pattern (fun _ => 0) (.strCell none)).pattern ≠ "No Data"
    ∧ (analyze_monthly_pattern (fun _ => 0) (.strCell none)).multiplier = 1
    ∧ (analyze_monthly_pattern (fun _ => 0) (.strCell none)).is_seasonal = false := by
  refine ⟨rfl, by decide, by decide, rfl, rfl⟩

/-! ## Claim C7 -/

/-- C7: `cpc_score` is the piecewise band value of the record's CPC with
lower bounds inclusive: a missing (NaN) or non-positive CPC scores the
missing-data default 50; CPC in [2,8] scores 100; CPC in [1,2) or (8,12]
scores 75; CPC in [0.5,1) or (12,20] scores 50; any other CPC (that is,
a positive CPC below 0.5 or above 20) scores 25. -/
theorem c7_theorem : ∀ c : ℚ,
    score_cpc none = 50
    ∧ (c ≤ 0 → score_cpc (some c) = 50)
    ∧ (2 ≤ c → c ≤ 8 → score_cpc (some c) = 100)
    ∧ ((1 ≤ c ∧ c < 2) ∨ (8 < c ∧ c ≤ 12) → score_cpc (some c) = 75)
    ∧ ((1/2 ≤ c ∧ c < 1) ∨ (12 < c ∧ c ≤ 20) → score_cpc (some c) = 50)
    ∧ (0 < c → c < 1/2 ∨ 20 < c → score_cpc (some c) = 25) := by
  intro c
  refine ⟨rfl, fun h => ?_, fun h1 h2 => ?_, fun h => ?_, fun h => ?_, fun h0 h => ?_⟩ <;>
    simp only [score_cpc]
  · rw [if_pos h]
  · rw [if_neg (by linarith), if_pos ⟨h1, h2⟩]
  · rcases h with ⟨a, b⟩ | ⟨a, b⟩
    · rw [if_neg (by linarith), if_neg (by rintro ⟨x, y⟩; linarith),
        if_pos (Or.inl ⟨a, b⟩)]
    · rw [if_neg (by linarith), if_neg (by rintro ⟨x, y⟩; linarith),
        if_pos (Or.inr ⟨a, b⟩)]
  · rcases h with ⟨a, b⟩ | ⟨a, b⟩
    · rw [if_neg (by linarith), if_neg (by rintro ⟨x, y⟩; linarith),
        if_neg (by rintro (⟨x, y⟩ | ⟨x, y⟩) <;> linarith), if_pos (Or.inl ⟨a, b⟩)]
    · rw [if_neg (by linarith), if_neg (by rintro ⟨x, y⟩; linarith),
        if_neg (by rintro (⟨x, y⟩ | ⟨x, y⟩) <;> linarith), if_pos (Or.inr ⟨a, b⟩)]
  · rcases h with h | h <;>
      rw [if_neg (by linarith), if_neg (by rintro ⟨x, y⟩; linarith),
        if_neg (by rintro (⟨x, y⟩ | ⟨x, y⟩) <;> linarith),
        if_neg (by rintro (⟨x, y⟩ | ⟨x, y⟩) <;> linarith)]

/-- C7 witness: band values at the in-band CPC 3, the boundary CPC 2, the
out-of-band CPC 21, and a missing CPC. -/
theorem c7_witness :
    score_cpc (some 3) = 100 ∧ score_cpc (some 2) = 100 ∧ score_cpc (some 21) = 25
    ∧ score_cpc none = 50 := by
  refine ⟨(c7_theorem 3).2.2.1 (by norm_num) (by norm_num),
    (c7_theorem 2).2.2.1 (by norm_num) (by norm_num),
    (c7_theorem 21).2.2.2.2.2 (by norm_num) (Or.inr (by norm_num)),
    (c7_theorem 0).1⟩

/-! ## Claim C9 -/

lemma tier_char (s : ℚ) :
    (assign_priority_tier s = "High" ↔ 70 ≤ s)
    ∧ (assign_priority_tier s = "Medium" ↔ 50 ≤ s ∧ s < 70)
    ∧ (assign_priority_tier s = "Low" ↔ s < 50) := by
  unfold assign_priority_tier
  split_ifs with h1 h2
  · refine ⟨⟨fun _ => h1, fun _ => rfl⟩, ⟨fun h => absurd h (by decide), ?_⟩,
      ⟨fun h => absurd h (by decide), ?_⟩⟩
    · rintro ⟨a, b⟩
      exact absurd h1 (by linarith)
    · intro h
      exact absurd h1 (by linarith)
  · refine ⟨⟨fun h => absurd h (by decide), fun h => absurd h h1⟩,
      ⟨fun _ => ⟨h2, not_le.mp h1⟩, fun _ => rfl⟩,
      ⟨fun h => absurd h (by decide), ?_⟩⟩
    intro h
    exact absurd h2 (by linarith)
  · refine ⟨⟨fun h => absurd h (by decide), fun h => absurd h h1⟩,
      ⟨fun h => absurd h (by decide), ?_⟩,
      ⟨fun _ => not_le.mp h2, fun _ => rfl⟩⟩
    rintro ⟨a, b⟩
    exact absurd a h2

lemma tier_mono {s t : ℚ} (h : s ≤ t) :
    tierRank (assign_priority_tier s) ≤ tierRank (assign_priority_tier t) := by
  unfold assign_priority_tier
  split_ifs <;> first | decide | linarith

/-- C9: `priority_tier` is a pure function of `total_score` — High iff the
score is at least 70, Medium iff it is in [50,70), Low iff below 50 — and
is monotone: a higher total score never gets a lower tier under the order
Low < Medium < High. -/
theorem c9_theorem : ∀ s t : ℚ,
    (assign_priority_tier s = "High" ↔ 70 ≤ s)
    ∧ (assign_priority_tier s = "Medium" ↔ 50 ≤ s ∧ s < 70)
    ∧ (assign_priority_tier s = "Low" ↔ s < 50)
    ∧ (s ≤ t → tierRank (assign_priority_tier s) ≤ tierRank (assign_priority_tier t)) :=
  fun s t => ⟨(tier_char s).1, (tier_char s).2.1, (tier_char s).2.2,
    fun h => tier_mono h⟩

/-- C9 witness: the monotonicity conclusion at the concrete scores 40 and
80. -/
theorem c9_witness :
    tierRank (assign_priority_tier 40) ≤ tierRank (assign_priority_tier 80) :=
  (c9_theorem 40 80).2.2.2 (by norm_num)


/-! ## List helper lemmas -/

lemma filter_filter' {α : Type} (p q : α → Bool) (l : List α) :
    (l.filter p).filter q = l.filter fun a => p a && q a := by
  rw [List.filter_filter]
  exact List.filter_congr fun x _ => Bool.and_comm _ _

/-! ## Claim C1 -/

/-- C1 (amended): with every filter column present, the final kept set of
`apply_smart_filters` is exactly the set of input records passing every
configured rule (the intersection, as the claim states); but each rule's
individually reported surviving count is computed over the survivors of
the previously applied rules — the count logged for rule k is the number
of input records passing rules 1..k — not over the full input set as the
claim states (see the counterexample). -/
theorem c1_theorem (matcher : String → String → Bool) (cfg : Filters) (df : KeywordFrame)
    (hall : df.hasSearchVolume = true ∧ df.hasCpc = true ∧ df.hasDifficulty = true
      ∧ df.hasMainIntent = true ∧ df.hasKeyword = true) :
    (apply_smart_filters matcher cfg df).1.rows
        = df.rows.filter (passesAll matcher cfg df)
    ∧ (apply_smart_filters matcher cfg df).2 = [
        ⟨"Volume filter", (df.rows.filter fun r => volPred cfg r).length, df.rows.length⟩,
        ⟨"CPC filter",
          (df.rows.filter fun r => volPred cfg r && cpcPred cfg r).length,
          df.rows.length⟩,
        ⟨"Difficulty filter",
          (df.rows.filter fun r => volPred cfg r && cpcPred cfg r && diffPred cfg r).length,
          df.rows.length⟩,
        ⟨"Intent filter",
          (df.rows.filter fun r => volPred cfg r && cpcPred cfg r && diffPred cfg r
            && intentPred cfg r).length, df.rows.length⟩,
        ⟨"Word count filter",
          (df.rows.filter fun r => volPred cfg r && cpcPred cfg r && diffPred cfg r
            && intentPred cfg r && wcPred cfg r).length, df.rows.length⟩,
        ⟨"Pattern exclusion filter",
          (df.rows.filter fun r => volPred cfg r && cpcPred cfg r && diffPred cfg r
            && intentPred cfg r && wcPred cfg r && patternPred matcher cfg r).length,
          df.rows.length⟩ ] := by
  obtain ⟨h1, h2, h3, h4, h5⟩ := hall
  have e2 := filter_filter' (volPred cfg) (cpcPred cfg) df.rows
  have e3 := filter_filter' (fun r => volPred cfg r && cpcPred cfg r) (diffPred cfg) df.rows
  have e4 := filter_filter' (fun r => volPred cfg r && cpcPred cfg r && diffPred cfg r)
    (intentPred cfg) df.rows
  have e5 := filter_filter' (fun r => volPred cfg r && cpcPred cfg r && diffPred cfg r
    && intentPred cfg r) (wcPred cfg) df.rows
  have e6 := filter_filter' (fun r => volPred cfg r && cpcPred cfg r && diffPred cfg r
    && intentPred cfg r && wcPred cfg r) (patternPred matcher cfg) df.rows
  simp only [apply_smart_filters, h1, h2, h3, h4, h5, if_true, e2, e3, e4, e5, e6]
  constructor
  · exact List.filter_congr fun x _ => by
      simp [passesAll, h1, h2, h3, h4, h5]
  · simp

/-- C1 witness: the amended theorem at a concrete two-row frame with all
columns present. -/
theorem c1_witness :
    (apply_smart_filters c1Matcher c1Cfg c1Df).1.rows
        = c1Df.rows.filter (passesAll c1Matcher c1Cfg c1Df)
    ∧ (apply_smart_filters c1Matcher c1Cfg c1Df).2 = [
        ⟨"Volume filter", (c1Df.rows.filter fun r => volPred c1Cfg r).length,
          c1Df.rows.length⟩,
        ⟨"CPC filter",
          (c1Df.rows.filter fun r => volPred c1Cfg r && cpcPred c1Cfg r).length,
          c1Df.rows.length⟩,
        ⟨"Difficulty filter",
          (c1Df.rows.filter fun r => volPred c1Cfg r && cpcPred c1Cfg r
            && diffPred c1Cfg r).length, c1Df.rows.length⟩,
        ⟨"Intent filter",
          (c1Df.rows.filter fun r => volPred c1Cfg r && cpcPred c1Cfg r && diffPred c1Cfg r
            && intentPred c1Cfg r).length, c1Df.rows.length⟩,
        ⟨"Word count filter",
          (c1Df.rows.filter fun r => volPred c1Cfg r && cpcPred c1Cfg r && diffPred c1Cfg r
            && intentPred c1Cfg r && wcPred c1Cfg r).length, c1Df.rows.length⟩,
        ⟨"Pattern exclusion filter",
          (c1Df.rows.filter fun r => volPred c1Cfg r && cpcPred c1Cfg r && diffPred c1Cfg r
            && intentPred c1Cfg r && wcPred c1Cfg r
            && patternPred c1Matcher c1Cfg r).length, c1Df.rows.length⟩ ] :=
  c1_theorem c1Matcher c1Cfg c1Df ⟨rfl, rfl, rfl, rfl, rfl⟩

/-- C1 counterexample to the claim as frozen: on `c1Df` (row A fails only
the volume rule, row B fails only the CPC rule) the logged surviving count
of the CPC rule is 0 — it was computed on the survivors of the volume rule
— while the number of input records passing the CPC rule over the full
input set is 1. -/
theorem c1_counterexample :
    (apply_smart_filters c1Matcher c1Cfg c1Df).2.get? 1 = some ⟨"CPC filter", 0, 2⟩
    ∧ (c1Df.rows.filter (cpcPred c1Cfg)).length = 1 := by decide

/-! ## Claim C2 -/

/-- C2 (amended): `filter_and_cluster_keywords` never signals an error —
the source has no `raise` and no `EmptyResultError` exists anywhere in the
repository. When zero records survive the filters it returns early with a
partial results dictionary lacking the `filtered_keywords` and
`negative_keywords` keys, so the downstream clustering/tier/match-type
steps of the stage do not run; when at least one record survives, the
results carry the final table and the negative keywords. -/
theorem c2_theorem {M : Type} (matcher : String → String → Bool)
    (vectorize : List String → Option M) (kmLabels : ℕ → M → List ℕ)
    (kmName : ℕ → M → ℕ → String) (cfg : Filters) (df : KeywordFrame) :
    exceptOk (filter_and_cluster_keywords matcher vectorize kmLabels kmName cfg df) = true
    ∧ ((apply_smart_filters matcher cfg df).1.rows.length = 0 →
        exceptFiltered (filter_and_cluster_keywords matcher vectorize kmLabels kmName cfg df)
            = none
        ∧ exceptNegs (filter_and_cluster_keywords matcher vectorize kmLabels kmName cfg df)
            = none)
    ∧ ((apply_smart_filters matcher cfg df).1.rows.length ≠ 0 →
        exceptFiltered (filter_and_cluster_keywords matcher vectorize kmLabels kmName cfg df)
            ≠ none
        ∧ exceptNegs (filter_and_cluster_keywords matcher vectorize kmLabels kmName cfg df)
            = some generate_negative_keywords) := by
  unfold filter_and_cluster_keywords
  by_cases hz : (apply_smart_filters matcher cfg df).1.rows.length = 0
  · simp [hz, exceptOk, exceptFiltered, exceptNegs]
  · simp [hz, exceptOk, exceptFiltered, exceptNegs]

/-- C2 witness: the amended theorem at a frame on which every record is
filtered out (`c1Df` under `c1Cfg`) and at a frame with one survivor. -/
theorem c2_witness :
    exceptOk (filter_and_cluster_keywords (M := Unit) c1Matcher (fun _ => none)
        (fun _ _ => []) (fun _ _ _ => "") c1Cfg c1Df) = true
    ∧ exceptFiltered (filter_and_cluster_keywords (M := Unit) c1Matcher (fun _ => none)
        (fun _ _ => []) (fun _ _ _ => "") c1Cfg c1Df) = none
    ∧ exceptNegs (filter_and_cluster_keywords (M := Unit) c1Matcher (fun _ => none)
        (fun _ _ => []) (fun _ _ _ => "") c1Cfg c1Df) = none
    ∧ exceptFiltered (filter_and_cluster_keywords (M := Unit) c1Matcher (fun _ => none)
        (fun _ _ => []) (fun _ _ _ => "") c1Cfg c2OneDf) ≠ none := by
  have h0 := c2_theorem (M := Unit) c1Matcher (fun _ => none) (fun _ _ => [])
    (fun _ _ _ => "") c1Cfg c1Df
  have h1 := c2_theorem (M := Unit) c1Matcher (fun _ => none) (fun _ _ => [])
    (fun _ _ _ => "") c1Cfg c2OneDf
  exact ⟨h0.1, (h0.2.1 (by decide)).1, (h0.2.1 (by decide)).2, (h1.2.2 (by decide)).1⟩

/-- C2 counterexample to the claim as frozen: on an input where zero
records survive, the stage does not raise any error — it returns normally
with the filter log and no `filtered_keywords` entry. -/
theorem c2_counterexample :
    filter_and_cluster_keywords (M := Unit) c1Matcher (fun _ => none) (fun _ _ => [])
        (fun _ _ _ => "") c1Cfg c1Df
      = .ok ⟨[⟨"Volume filter", 1, 2⟩, ⟨"CPC filter", 0, 2⟩, ⟨"Difficulty filter", 0, 2⟩,
          ⟨"Intent filter", 0, 2⟩, ⟨"Word count filter", 0, 2⟩,
          ⟨"Pattern exclusion filter", 0, 2⟩], none, none⟩ := rfl

/-! ## Claim C3 -/

/-- C3 (amended): on the normal path — at least 10 keywords and a
successful vectorization — `create_semantic_clusters` copies before
assigning and leaves its input table unchanged; on the degenerate paths it
mutates the input table in place (see the counterexample), so the claim's
universal no-mutation statement fails. -/
theorem c3_theorem {M : Type} (vectorize : List String → Option M)
    (kmLabels : ℕ → M → List ℕ) (kmName : ℕ → M → ℕ → String)
    (df : KeywordFrame) (nc : Option ℕ) (m : M)
    (h10 : 10 ≤ df.rows.length) (hvec : vectorize (keywordTexts df) = some m) :
    (create_semantic_clusters vectorize kmLabels kmName df nc).2 = df := by
  unfold create_semantic_clusters
  rw [if_neg (by omega), hvec]

/-- C3 witness: the amended theorem at a ten-row frame with a succeeding
vectorizer. -/
theorem c3_witness :
    (create_semantic_clusters (M := Unit) (fun _ => some ()) (fun _ _ => List.replicate 10 0)
      (fun _ _ _ => "kw") c3WDf none).2 = c3WDf :=
  c3_theorem (fun _ => some ()) (fun _ _ => List.replicate 10 0) (fun _ _ _ => "kw")
    c3WDf none () (by decide) rfl

/-- C3 counterexample to the claim as frozen: on a one-row frame (fewer
than 10 keywords) `create_semantic_clusters` assigns the cluster columns
on the input frame itself, so after the call the input frame differs from
its original value (its row has gained `cluster_id = 0`). -/
theorem c3_counterexample :
    (create_semantic_clusters (M := Unit) (fun _ => some ()) (fun _ _ => [])
        (fun _ _ _ => "") c3CexDf none).2 ≠ c3CexDf
    ∧ (create_semantic_clusters (M := Unit) (fun _ => some ()) (fun _ _ => [])
        (fun _ _ _ => "") c3CexDf none).2.rows.map (fun r => r.cluster_id) = [some 0]
    ∧ c3CexDf.rows.map (fun r => r.cluster_id) = [none] := by decide

/-! ## Claim C4 -/

/-- C4: for a corpus of fewer than 10 keywords — and likewise whenever
vectorization fails — `create_semantic_clusters` returns the single-cluster
degenerate result: the keyword column is unchanged and every record gets
`cluster_id = 0` and the cluster name "All Keywords"; the embedding is a
total function, mirroring that these paths raise nothing. -/
theorem c4_theorem {M : Type} (vectorize : List String → Option M)
    (kmLabels : ℕ → M → List ℕ) (kmName : ℕ → M → ℕ → String)
    (df : KeywordFrame) (nc : Option ℕ)
    (h : df.rows.length < 10 ∨ vectorize (keywordTexts df) = none) :
    ((create_semantic_clusters vectorize kmLabels kmName df nc).1).rows.map
        (fun r => r.keyword) = df.rows.map (fun r => r.keyword)
    ∧ ∀ r ∈ ((create_semantic_clusters vectorize kmLabels kmName df nc).1).rows,
        r.cluster_id = some 0 ∧ r.cluster_name = some "All Keywords" := by
  unfold create_semantic_clusters
  by_cases h10 : df.rows.length < 10
  · simp only [if_pos h10]
    constructor
    · simp [List.map_map]
    · intro r hr
      simp only [List.mem_map] at hr
      obtain ⟨r0, _, rfl⟩ := hr
      exact ⟨rfl, rfl⟩
  · rcases h with h | hvec
    · omega
    · simp only [if_neg h10, hvec]
      constructor
      · simp [List.map_map]
      · intro r hr
        simp only [List.mem_map] at hr
        obtain ⟨r0, _, rfl⟩ := hr
        exact ⟨rfl, rfl⟩

/-- C4 witness: the theorem at a one-row frame (fewer than 10 keywords,
with the returned row checked to carry the single cluster) and at a
ten-row frame whose vectorization fails. -/
theorem c4_witness :
    ((create_semantic_clusters (M := Unit) (fun _ => some ()) (fun _ _ => [])
        (fun _ _ _ => "") c3CexDf none).1).rows.map (fun r => r.keyword)
      = c3CexDf.rows.map (fun r => r.keyword)
    ∧ (c4WRow.cluster_id = some 0 ∧ c4WRow.cluster_name = some "All Keywords")
    ∧ ((create_semantic_clusters (M := Unit) (fun _ => none) (fun _ _ => [])
        (fun _ _ _ => "") c3WDf none).1).rows.map (fun r => r.keyword)
      = c3WDf.rows.map (fun r => r.keyword) := by
  have ha := c4_theorem (M := Unit) (fun _ => some ()) (fun _ _ => [])
    (fun _ _ _ => "") c3CexDf none (Or.inl (by decide))
  have hb := c4_theorem (M := Unit) (fun _ => none) (fun _ _ => [])
    (fun _ _ _ => "") c3WDf none (Or.inr rfl)
  exact ⟨ha.1, ha.2 c4WRow (by decide), hb.1⟩

/-! ## Claim C8 -/

/-- C8: for every record carrying a difficulty and a volume,
`_assign_campaign_tier` computes exactly the specification's fixed
priority-ordered decision list (first matching rule wins): difficulty ≤ 30
and volume ≥ 100 gives easy wins; else volume ≥ 1000 gives high volume;
else difficulty ≤ 40 gives long tail; else difficulty > 60 and
volume ≥ 500 gives competitive; else general. -/
theorem c8_theorem (r : CampRow) (d v : ℚ)
    (hd : r.keyword_difficulty = some d) (hv : r.search_volume = some v) :
    _assign_campaign_tier r = assignTierSpec d v := by
  simp only [_assign_campaign_tier, assignTierSpec, hd, hv, optLe, optGe, optGt,
    Bool.and_eq_true, decide_eq_true_eq]

/-- C8 witness: the theorem at difficulty 20 and volume 150, which lands
in the easy-wins tier. -/
theorem c8_witness :
    _assign_campaign_tier c8WRow = assignTierSpec 20 150
    ∧ assignTierSpec 20 150 = "tier_1_easy_wins" :=
  ⟨c8_theorem c8WRow 20 150 rfl rfl, by norm_num [assignTierSpec]⟩

/-! ## Claim C10 -/

/-- C10: the campaign-ready set prepared by `_prepare_campaign_keywords`
consists (up to the added derived columns, blanked by `baseOf`) of exactly
the input records that pass `campaignKeep`; and `campaignKeep` holds for a
record iff — when the intent column is present — its `main_intent` is
commercial or transactional, and its keyword is present with a trimmed
lowercased text strictly longer than 2 characters. All other records are
dropped before the match-type, bid and tier assignments. -/
theorem c10_theorem (df : CampFrame) (r : CampRow) :
    ((_prepare_campaign_keywords df).map baseOf
        = (df.rows.filter (campaignKeep df.hasMainIntent)).map baseOf)
    ∧ (campaignKeep df.hasMainIntent r = true
        ↔ (df.hasMainIntent = true →
            r.main_intent = some "commercial" ∨ r.main_intent = some "transactional")
          ∧ ∃ k, r.keyword = some k ∧ 2 < (pyStrip (pyLower k)).length) := by
  constructor
  · obtain ⟨hInt, rows⟩ := df
    unfold _prepare_campaign_keywords campaignKeep
    cases hInt <;>
      induction rows with
      | nil => simp
      | cons a t ih =>
        simp only [List.filter_cons, List.map_cons]
        cases hai : a.main_intent <;>
          cases hak : a.keyword <;>
          simp_all [baseOf, List.filter_cons, apply_ite (List.map baseOf)] <;>
          split_ifs <;>
          simp_all [baseOf]
  · unfold campaignKeep
    cases hInt : df.hasMainIntent <;>
      cases hai : r.main_intent <;>
      cases hak : r.keyword <;>
      simp_all [List.contains]

end KeywordResearch
